import Mathlib

/-
Verification development for the euclib 2D computational-geometry library
(euclib_math.hpp, point.hpp, rect.hpp, polygon.hpp).

Modelling conventions:
* The C++ element type T is modelled by the rationals.  A value of the
  structure `NumT` packages the facts about T that the source reads from
  std::numeric_limits (has_infinity, infinity, max, epsilon) together with
  the accuracy category used by mpl::accuracy_traits (the tag selects the
  exact or the tolerance-based comparison in euclib_math.hpp).
* Floating-point values are modelled as rationals with exact arithmetic;
  the special values +infinity and FLT_MAX are modelled as designated huge
  rationals.  This stand-in does NOT reproduce IEEE arithmetic with the
  sentinel: in real float, eps*inf = inf and |inf - x| = inf, so the
  tolerance test of detail::equal accepts the sentinel against every
  finite value.  Where a claim's verdict depends on that behavior
  (point_base::operator== between a null and a finite point), the float
  special values are modelled faithfully by the `FP` type below, whose
  arithmetic follows the IEEE rules for +-infinity and NaN.
* float atan2 in polygon2::graham_hull is modelled by the computable
  `pseudo_angle`, a standard order-isomorphic surrogate of atan2: it is
  strictly increasing in the polar angle of (x, y) and takes equal values
  exactly on equal directions, so every comparison verdict of the sort
  comparator is preserved at the concrete inputs of the claims.
-/

set_option maxRecDepth 4096

/-- Numeric-limits and accuracy data of an instantiation of the element
type T.  `accurate = true` models mpl::accurate_tag (exact types such as
int), `accurate = false` models mpl::inaccurate_tag (floating point).
Modelled from the spec: type_traits.hpp (mpl::accuracy_traits) is not in
src/; spec section 3 classifies every element type into exactly one of the
two categories. -/
structure NumT where
  has_infinity : Bool
  infinity : ℚ
  max : ℚ
  epsilon : ℚ
  accurate : Bool
deriving DecidableEq

/-- std::abs on the modelled element type. -/
def qabs (a : ℚ) : ℚ := if a < 0 then -a else a

/-- detail::equal (euclib_math.hpp lines 89-103): tag dispatch between the
tolerance formula of the inaccurate overload and the raw == of the accurate
overload. -/
def detail.equal (n : NumT) (a b : ℚ) : Bool :=
  if n.accurate then decide (a = b)
  else decide (qabs (a - b) ≤ n.epsilon * (qabs a + qabs b + 1))

/-- detail::less_than (euclib_math.hpp lines 111-128): tag dispatch between
the tolerance formula and raw <. -/
def detail.less_than (n : NumT) (a b : ℚ) : Bool :=
  if n.accurate then decide (a < b)
  else decide (b - a > n.epsilon * (qabs a + qabs b + 1))

/-- detail::not_equal (euclib_math.hpp lines 106-109): raw !=, with no tag
dispatch. -/
def detail.not_equal (a b : ℚ) : Bool := decide (¬ a = b)

/-- detail::greater_than (euclib_math.hpp lines 131-134): raw <, with no
tag dispatch. -/
def detail.greater_than (a b : ℚ) : Bool := decide (b < a)

/-- detail::less_than_eq (euclib_math.hpp lines 136-139): raw <, with no
tag dispatch. -/
def detail.less_than_eq (a b : ℚ) : Bool := !(decide (b < a))

/-- detail::greater_than_eq (euclib_math.hpp lines 141-144): raw <, with no
tag dispatch. -/
def detail.greater_than_eq (a b : ℚ) : Bool := !(decide (a < b))

/-- The int instantiation: no infinity, max = INT_MAX, epsilon() = 0,
accurate tag. -/
def intM : NumT :=
  { has_infinity := false
  , infinity := 0
  , max := 2147483647
  , epsilon := 0
  , accurate := true }

/-- The float instantiation: has an infinity (modelled by the stand-in
rational 10^9, far above every finite value appearing in this
development), max = FLT_MAX stand-in 10^8, epsilon = FLT_EPSILON = 2^-23,
inaccurate tag.  The finite stand-in keeps the tolerance comparison of
the sentinel against the small finite values of the claims false, which
matches real float only where the sentinel meets == or values far from
it; real float additionally makes detail::equal accept the sentinel
against EVERY finite value (eps*inf = inf), a behavior this stand-in
cannot express and which the `FP` model below captures faithfully. -/
def floatM : NumT :=
  { has_infinity := true
  , infinity := 1000000000
  , max := 100000000
  , epsilon := 1 / 8388608
  , accurate := false }

/-- point_base::invalid (point.hpp lines 316-322): infinity if the type has
one, else the max value. -/
def point_base.invalid (n : NumT) : ℚ :=
  if n.has_infinity then n.infinity else n.max

/-- The coordinate tuple stored by the variadic point_base constructor
(point.hpp lines 59-64 and 118-128): the supplied values, with the
remaining spots filled with 0.  The constructor runs fill only; it does
not call check_valid. -/
def point_base.fill (D : ℕ) (args : List ℚ) : List ℚ :=
  args.take D ++ List.replicate (D - args.length) 0

/-- point_base::set_null (point.hpp lines 112-116): every coordinate
becomes invalid. -/
def point_base.set_null (n : NumT) (data : List ℚ) : List ℚ :=
  List.replicate data.length (point_base.invalid n)

/-- point_base::check_valid (point.hpp lines 103-110): if any coordinate
equals invalid, set_null. -/
def point_base.check_valid (n : NumT) (data : List ℚ) : List ℚ :=
  if point_base.invalid n ∈ data then point_base.set_null n data else data

/-- point_base::operator= (point.hpp lines 149-153): copy the data, then
check_valid. -/
def point_base.assign (n : NumT) (data : List ℚ) : List ℚ :=
  point_base.check_valid n data

/-- point_base::operator== (point.hpp lines 134-143): coordinate-wise, a
pair of coordinates passes if both equal invalid or if detail::equal
accepts them. -/
def point_base.point_eq (n : NumT) (a b : List ℚ) : Bool :=
  (a.zip b).all fun c =>
    decide (c.1 = point_base.invalid n ∧ c.2 = point_base.invalid n) ||
    detail.equal n c.1 c.2

/-- point_base::null (point.hpp lines 70-73): a static local constructed
from the two raw values {invalid, invalid} (two arguments for every
dimension D), returned by value; the return copy runs the copy
constructor, which delegates to operator= and hence to check_valid. -/
def point_base.null (n : NumT) (D : ℕ) : List ℚ :=
  point_base.assign n (point_base.fill D [point_base.invalid n, point_base.invalid n])

/-- An axis-aligned rectangle state: the four scalar fields of rect2
(rect.hpp line 44). -/
structure Rect where
  l : ℚ
  r : ℚ
  t : ℚ
  b : ℚ
deriving DecidableEq

/-- rect2::set_null (rect.hpp lines 138-145): all four fields become
infinity if the type has one, else max. -/
def rect2.set_null (n : NumT) : Rect :=
  if n.has_infinity then ⟨n.infinity, n.infinity, n.infinity, n.infinity⟩
  else ⟨n.max, n.max, n.max, n.max⟩

/-- rect2::check_valid (rect.hpp lines 118-136): set_null if any field
equals infinity (when the type has one), else if any field equals max,
else if l - r >= epsilon or t - b >= epsilon. -/
def rect2.check_valid (n : NumT) (R : Rect) : Rect :=
  if n.has_infinity = true ∧
      (R.l = n.infinity ∨ R.r = n.infinity ∨ R.t = n.infinity ∨ R.b = n.infinity) then
    rect2.set_null n
  else if R.l = n.max ∨ R.r = n.max ∨ R.t = n.max ∨ R.b = n.max then
    rect2.set_null n
  else if R.l - R.r ≥ n.epsilon ∨ R.t - R.b ≥ n.epsilon then
    rect2.set_null n
  else R

/-- The rect2 four-scalar constructor (rect.hpp lines 53-59): store the
fields, then check_valid. -/
def rect2.of_bounds (n : NumT) (l r t b : ℚ) : Rect :=
  rect2.check_valid n ⟨l, r, t, b⟩

/-- The rect2 corner-plus-extent constructor (rect.hpp lines 60-66):
l = location.x, r = location.x + width, t = location.y,
b = location.y + height, then check_valid. -/
def rect2.of_point_extent (n : NumT) (px py w h : ℚ) : Rect :=
  rect2.check_valid n ⟨px, px + w, py, py + h⟩

/-- rect2::null (rect.hpp lines 73-83): the all-infinity (or all-max)
rectangle, built through the four-scalar constructor. -/
def rect2.null (n : NumT) : Rect :=
  if n.has_infinity then rect2.of_bounds n n.infinity n.infinity n.infinity n.infinity
  else rect2.of_bounds n n.max n.max n.max n.max

/-- The flat form of the condition under which rect2::check_valid
normalizes, written the way the amended claim states it: some field equals
infinity (when representable), or some field equals max, or l - r >=
epsilon, or t - b >= epsilon. -/
def rect2.null_cond (n : NumT) (l r t b : ℚ) : Bool :=
  decide ((n.has_infinity = true ∧ (l = n.infinity ∨ r = n.infinity ∨ t = n.infinity ∨ b = n.infinity)) ∨
    (l = n.max ∨ r = n.max ∨ t = n.max ∨ b = n.max) ∨
    l - r ≥ n.epsilon ∨ t - b ≥ n.epsilon)

/-- A 2D point of the polygon layer (point2 of point.hpp, specialized to
two named coordinates). -/
structure point2 where
  x : ℚ
  y : ℚ
deriving DecidableEq

/-- point2::null for dimension 2: both coordinates invalid. -/
def point2.null (n : NumT) : point2 :=
  ⟨point_base.invalid n, point_base.invalid n⟩

/-- point2 operator== through the generic point_base comparison. -/
def point2.peq (n : NumT) (a b : point2) : Bool :=
  point_base.point_eq n [a.x, a.y] [b.x, b.y]

/-- polygon2::direction (polygon.hpp lines 171-173): the 2D cross product
of (pt1 - pt0) and (pt2 - pt0). -/
def polygon2.direction (p0 p1 p2 : point2) : ℚ :=
  (p1.x - p0.x) * (p2.y - p0.y) - (p1.y - p0.y) * (p2.x - p0.x)

/-- Computable order-isomorphic surrogate of float atan2(y, x), standing
in for the angle computation of polygon2::graham_hull::sort_angle
(polygon.hpp lines 206-207): strictly increasing in the polar angle of
(x, y) over the atan2 range (-pi, pi], with equal values exactly on equal
directions. -/
def pseudo_angle (y x : ℚ) : ℚ :=
  if x = 0 ∧ y = 0 then 0
  else if 0 ≤ x then y / (qabs x + qabs y)
  else if 0 ≤ y then 2 - y / (qabs x + qabs y)
  else -2 - y / (qabs x + qabs y)

/-- The modelled angle of point p about the anchor best, as computed by
sort_angle: atan2(p.y - best.y, p.x - best.x). -/
def polygon2.angle_of (best p : point2) : ℚ :=
  pseudo_angle (p.y - best.y) (p.x - best.x)

/-- polygon2::graham_hull::sort_angle::operator() (polygon.hpp lines
199-221): the anchor sorts first; otherwise compare the atan2 angles with
detail::equal (the angles are float regardless of T); on equal angles
break the tie through detail::equal on the y coordinates and the raw
detail::greater_than on the x (resp. y) coordinates. -/
def polygon2.sort_angle (n : NumT) (best l r : point2) : Bool :=
  if point2.peq n l best then true
  else if point2.peq n r best then false
  else
    let ang1 := polygon2.angle_of best l
    let ang2 := polygon2.angle_of best r
    if detail.equal n ang1 ang2 then
      if detail.equal n r.y l.y then detail.greater_than r.x l.x
      else detail.greater_than r.y l.y
    else detail.greater_than ang2 ang1

/-- One insertion step of the model of std::sort: place x before the first
element the comparator orders it before. -/
def polygon2.insert_sorted (c : point2 → point2 → Bool) (x : point2) :
    List point2 → List point2
  | [] => [x]
  | y :: ys => if c x y then x :: y :: ys else y :: polygon2.insert_sorted c x ys

/-- Model of std::sort with the given comparator (polygon.hpp line 221):
insertion sort.  At the inputs of the claims the comparator is a strict
total order, so every comparison sort produces this unique result. -/
def polygon2.sort_by (c : point2 → point2 → Bool) (l : List point2) : List point2 :=
  l.foldr (polygon2.insert_sorted c) []

/-- Modelled from the spec: segment.hpp is not in src/; spec section 4.3
defines segment length() as the Euclidean norm of pt2 - pt1.  Lengths are
represented by their squares so the model stays inside the rationals; two
nonnegative lengths are equal exactly when their squares are. -/
def polygon2.length_sq (a b : point2) : ℚ :=
  (b.x - a.x) * (b.x - a.x) + (b.y - a.y) * (b.y - a.y)

/-- The per-point stack loop of the graham_hull scan (polygon.hpp lines
228-251), with the top of the stack at the head of the list.  A retry of
the same point after a pop is the recursive call on the popped stack:
raw-positive cross pushes; a cross within tolerance of zero pops and
retries when the two candidate segment lengths are equal within tolerance
and otherwise leaves the stack unchanged (the point is dropped); a
negative cross pops and retries. -/
def polygon2.scan_point (n : NumT) (p : point2) : List point2 → List point2
  | top :: sec :: more =>
      let dir := polygon2.direction sec top p
      if detail.greater_than dir 0 then p :: top :: sec :: more
      else if detail.equal n dir 0 then
        if detail.equal n (polygon2.length_sq sec p) (polygon2.length_sq sec top) then
          polygon2.scan_point n p (sec :: more)
        else top :: sec :: more
      else polygon2.scan_point n p (sec :: more)
  | stack => p :: stack

/-- The main loop of the graham_hull scan over the sorted points beyond
the first two. -/
def polygon2.scan (n : NumT) : List point2 → List point2 → List point2
  | stack, [] => stack
  | stack, p :: ps => polygon2.scan n (polygon2.scan_point n p stack) ps

/-- The observable state of a polygon2: the hull vertex sequence and the
cached bounding box. -/
structure Polygon where
  hull : List point2
  bbox : Rect
deriving DecidableEq

/-- polygon2::check_valid (polygon.hpp lines 284-289): null the polygon
when the hull holds fewer than 3 vertices.  The source's std::remove is
not followed by an erase, so it permutes m_hull without shrinking it and
the size test sees the unfiltered size, which is what is modelled here.
This member is defined by the source but never invoked on any path. -/
def polygon2.check_valid (n : NumT) (P : Polygon) : Polygon :=
  if P.hull.length < 3 then ⟨P.hull, rect2.null n⟩ else P

/-- A float value with the IEEE special values: a finite rational,
+infinity, -infinity, or NaN.  Used to model the code paths whose verdict
depends on arithmetic with the float sentinel, which the finite rational
stand-in of floatM cannot express. -/
inductive FP where
  | fin : ℚ → FP
  | pinf : FP
  | ninf : FP
  | nan : FP
deriving DecidableEq

/-- std::abs on float with the IEEE special values. -/
def FP.abs : FP → FP
  | FP.fin q => FP.fin (qabs q)
  | FP.pinf => FP.pinf
  | FP.ninf => FP.pinf
  | FP.nan => FP.nan

/-- Float addition on the IEEE special values. -/
def FP.add : FP → FP → FP
  | FP.fin a, FP.fin b => FP.fin (a + b)
  | FP.pinf, FP.fin _ => FP.pinf
  | FP.fin _, FP.pinf => FP.pinf
  | FP.pinf, FP.pinf => FP.pinf
  | FP.ninf, FP.fin _ => FP.ninf
  | FP.fin _, FP.ninf => FP.ninf
  | FP.ninf, FP.ninf => FP.ninf
  | FP.pinf, FP.ninf => FP.nan
  | FP.ninf, FP.pinf => FP.nan
  | FP.nan, _ => FP.nan
  | _, FP.nan => FP.nan

/-- Float subtraction on the IEEE special values. -/
def FP.sub : FP → FP → FP
  | FP.fin a, FP.fin b => FP.fin (a - b)
  | FP.pinf, FP.fin _ => FP.pinf
  | FP.fin _, FP.pinf => FP.ninf
  | FP.ninf, FP.fin _ => FP.ninf
  | FP.fin _, FP.ninf => FP.pinf
  | FP.pinf, FP.ninf => FP.pinf
  | FP.ninf, FP.pinf => FP.ninf
  | FP.pinf, FP.pinf => FP.nan
  | FP.ninf, FP.ninf => FP.nan
  | FP.nan, _ => FP.nan
  | _, FP.nan => FP.nan

/-- Float multiplication on the IEEE special values. -/
def FP.mul : FP → FP → FP
  | FP.fin a, FP.fin b => FP.fin (a * b)
  | FP.fin a, FP.pinf => if a > 0 then FP.pinf else if a < 0 then FP.ninf else FP.nan
  | FP.pinf, FP.fin b => if b > 0 then FP.pinf else if b < 0 then FP.ninf else FP.nan
  | FP.fin a, FP.ninf => if a > 0 then FP.ninf else if a < 0 then FP.pinf else FP.nan
  | FP.ninf, FP.fin b => if b > 0 then FP.ninf else if b < 0 then FP.pinf else FP.nan
  | FP.pinf, FP.pinf => FP.pinf
  | FP.ninf, FP.ninf => FP.pinf
  | FP.pinf, FP.ninf => FP.ninf
  | FP.ninf, FP.pinf => FP.ninf
  | FP.nan, _ => FP.nan
  | _, FP.nan => FP.nan

/-- Float <= on the IEEE special values: every comparison with NaN is
false, -infinity is below everything else, +infinity above (and
inf <= inf holds). -/
def FP.le : FP → FP → Bool
  | FP.fin a, FP.fin b => decide (a ≤ b)
  | FP.nan, _ => false
  | _, FP.nan => false
  | FP.ninf, _ => true
  | _, FP.pinf => true
  | FP.pinf, _ => false
  | _, FP.ninf => false

/-- detail::equal at the float instantiation computed on the IEEE special
values: the source formula |a - b| <= eps * (|a| + |b| + 1.0) of
euclib_math.hpp lines 89-93, with eps = FLT_EPSILON.  At a = +infinity
and finite b both sides evaluate to +infinity and inf <= inf holds, so
the sentinel is tolerance-equal to every finite value. -/
def detail.equal_fp (eps : ℚ) (a b : FP) : Bool :=
  FP.le (FP.abs (FP.sub a b))
    (FP.mul (FP.fin eps) (FP.add (FP.add (FP.abs a) (FP.abs b)) (FP.fin 1)))

/-- The tuple stored by the variadic point_base constructor over float
values with IEEE special values (point.hpp lines 59-64 and 118-128). -/
def point_base.fill_fp (D : ℕ) (args : List FP) : List FP :=
  args.take D ++ List.replicate (D - args.length) (FP.fin 0)

/-- point_base::check_valid over float values with IEEE special values
(point.hpp lines 103-110): invalid is +infinity for float. -/
def point_base.check_valid_fp (data : List FP) : List FP :=
  if FP.pinf ∈ data then List.replicate data.length FP.pinf else data

/-- point_base::null at the float instantiation with IEEE special values
(point.hpp lines 70-73): {invalid, invalid} zero-filled to dimension D,
collapsed by the check_valid run on the returned copy. -/
def point_base.null_fp (D : ℕ) : List FP :=
  point_base.check_valid_fp (point_base.fill_fp D [FP.pinf, FP.pinf])

/-- point_base::operator== at the float instantiation with IEEE special
values (point.hpp lines 134-143): a coordinate pair passes if both equal
the sentinel +infinity or if the tolerance comparison accepts them. -/
def point_base.point_eq_fp (a b : List FP) : Bool :=
  (a.zip b).all fun c =>
    decide (c.1 = FP.pinf ∧ c.2 = FP.pinf) || detail.equal_fp (1 / 8388608) c.1 c.2

/-- Bridge between the executable std::abs model and the mathlib absolute
value. -/
theorem qabs_eq_abs (a : ℚ) : qabs a = |a| := by
  unfold qabs
  split
  · exact (abs_of_neg (by assumption)).symm
  · exact (abs_of_nonneg (le_of_not_lt (by assumption))).symm

/-- C5: for every inexact element type and all values a and b, equal(a,b)
holds iff |a-b| <= eps*(|a|+|b|+1), less_than(a,b) holds iff
b-a > eps*(|a|+|b|+1), and equal(a,b) implies that neither less_than(a,b)
nor less_than(b,a) holds. -/
theorem inexact_equal_lt_spec (n : NumT) (h : n.accurate = false) (a b : ℚ) :
    (detail.equal n a b = true ↔ |a - b| ≤ n.epsilon * (|a| + |b| + 1)) ∧
    (detail.less_than n a b = true ↔ b - a > n.epsilon * (|a| + |b| + 1)) ∧
    (detail.equal n a b = true →
      detail.less_than n a b = false ∧ detail.less_than n b a = false) := by
  unfold detail.equal detail.less_than
  rw [h]
  simp only [Bool.false_eq_true, if_false, decide_eq_true_eq, decide_eq_false_iff_not,
    qabs_eq_abs]
  refine ⟨trivial, trivial, fun habs => ⟨?_, ?_⟩⟩
  · exact not_lt_of_le (le_trans (le_trans (le_abs_self _) (abs_sub_comm a b ▸ le_refl _)) habs)
  · intro hlt
    have h1 : a - b ≤ |a - b| := le_abs_self _
    have h2 : n.epsilon * (|b| + |a| + 1) = n.epsilon * (|a| + |b| + 1) := by ring
    exact absurd (lt_of_le_of_lt (le_trans h1 habs) (h2 ▸ hlt)) (lt_irrefl _)

/-- Witness for C5 at the float instantiation and a = b = 1: equal holds
there, so both directions of less_than are false. -/
theorem inexact_equal_lt_spec_wit :
    detail.less_than floatM 1 1 = false ∧ detail.less_than floatM 1 1 = false :=
  (inexact_equal_lt_spec floatM rfl 1 1).2.2 (by norm_num [detail.equal, qabs, floatM])

/-- C6 counterexample: at the float instantiation, a = 1 and
b = 1 + 2^-24 are equal under the tolerance-aware equal, yet the derived
not_equal still reports true (it compares with the raw operators), and
greater_than b a reports true while the tolerance-aware less_than a b is
false, so the claimed equivalences fail for an inexact type. -/
theorem derived_cmp_cex :
    detail.equal floatM 1 (1 + 1 / 16777216) = true ∧
    detail.not_equal (1 : ℚ) (1 + 1 / 16777216) = true ∧
    detail.greater_than (1 + 1 / 16777216 : ℚ) 1 = true ∧
    detail.less_than floatM 1 (1 + 1 / 16777216) = false := by
  norm_num [detail.equal, detail.not_equal, detail.greater_than, detail.less_than, qabs, floatM]

/-- C6 amended: the derived predicates compare with the raw operators, so
the claimed equivalences with the accuracy-aware primitives hold exactly
for the accurate (exact) category, where equal and less_than are the raw
operators themselves. -/
theorem derived_cmp_exact_only (n : NumT) (h : n.accurate = true) (a b : ℚ) :
    detail.not_equal a b = !(detail.equal n a b) ∧
    detail.greater_than a b = detail.less_than n b a ∧
    detail.less_than_eq a b = !(detail.less_than n b a) ∧
    detail.greater_than_eq a b = !(detail.less_than n a b) := by
  unfold detail.not_equal detail.equal detail.greater_than detail.less_than
    detail.less_than_eq detail.greater_than_eq
  rw [h]
  simp [decide_not]

/-- Witness for C6 amended at the int instantiation and a = 3, b = 4. -/
theorem derived_cmp_exact_only_wit :
    detail.not_equal (3 : ℚ) 4 = !(detail.equal intM 3 4) ∧
    detail.greater_than (3 : ℚ) 4 = detail.less_than intM 4 3 ∧
    detail.less_than_eq (3 : ℚ) 4 = !(detail.less_than intM 4 3) ∧
    detail.greater_than_eq (3 : ℚ) 4 = !(detail.less_than intM 3 4) :=
  derived_cmp_exact_only intM rfl 3 4

/-- C7 counterexample: at the int instantiation the sentinel is INT_MAX,
and constructing a 2D point from the raw values {INT_MAX, 0} stores them
unchanged: the constructor runs fill only, so the tuple does not collapse
to all-sentinel although a supplied coordinate equals the sentinel. -/
theorem ctor_sentinel_cex :
    point_base.invalid intM = 2147483647 ∧
    point_base.fill 2 [(2147483647 : ℚ), 0] = [2147483647, 0] ∧
    point_base.fill 2 [(2147483647 : ℚ), 0] ≠ [2147483647, 2147483647] := by
  refine ⟨by norm_num [point_base.invalid, intM], by simp [point_base.fill], ?_⟩
  simp [point_base.fill]

/-- C7 amended: the raw-value constructor stores the supplied coordinates
unchanged (zero-filling the trailing spots) and performs no sentinel
detection; the collapse to all-sentinel happens in check_valid, which runs
on the assignment operators, whenever any coordinate equals the
sentinel. -/
theorem ctor_no_collapse_assign_collapses :
    (∀ (D : ℕ) (args : List ℚ), args.length ≤ D →
      point_base.fill D args = args ++ List.replicate (D - args.length) 0) ∧
    (∀ (n : NumT) (data : List ℚ), point_base.invalid n ∈ data →
      point_base.assign n data = List.replicate data.length (point_base.invalid n)) := by
  constructor
  · intro D args h
    unfold point_base.fill
    rw [List.take_of_length_le h]
  · intro n data hm
    unfold point_base.assign point_base.check_valid point_base.set_null
    rw [if_pos hm]

/-- Witness for C7 amended: a partial argument list is zero-filled, and an
assignment of a tuple holding a sentinel collapses it. -/
theorem ctor_no_collapse_wit :
    point_base.fill 3 [(5 : ℚ)] = [5, 0, 0] ∧
    point_base.assign intM [(2147483647 : ℚ), 1] = [2147483647, 2147483647] := by
  constructor
  · have h := ctor_no_collapse_assign_collapses.1 3 [(5 : ℚ)] (by norm_num)
    simpa using h
  · have h := ctor_no_collapse_assign_collapses.2 intM [(2147483647 : ℚ), 1]
      (by norm_num [point_base.invalid, intM])
    simpa [point_base.invalid, intM] using h

/-- Helper: the coordinate-wise comparison accepts two equal all-sentinel
tuples. -/
theorem point_eq_replicate_invalid (n : NumT) (D : ℕ) :
    point_base.point_eq n (List.replicate D (point_base.invalid n))
      (List.replicate D (point_base.invalid n)) = true := by
  unfold point_base.point_eq
  induction D with
  | zero => rfl
  | succ k ih => simpa [List.replicate_succ] using ih

/-- Helper: against an all-sentinel tuple, the coordinate-wise comparison
rejects any tuple that holds a non-sentinel coordinate, provided the
element type never tolerates equality between the sentinel and another
value. -/
theorem point_eq_replicate_invalid_false (n : NumT)
    (hinv : ∀ x : ℚ, x ≠ point_base.invalid n →
      detail.equal n (point_base.invalid n) x = false)
    (p : List ℚ) (b : ℚ) (hb : b ∈ p) (hbne : b ≠ point_base.invalid n) :
    ∀ D : ℕ, p.length ≤ D →
      point_base.point_eq n (List.replicate D (point_base.invalid n)) p = false := by
  induction p with
  | nil => cases hb
  | cons x xs ih =>
    intro D hD
    cases D with
    | zero => simp at hD
    | succ k =>
      unfold point_base.point_eq
      rw [List.replicate_succ, List.zip_cons_cons, List.all_cons]
      rcases List.mem_cons.mp hb with hx | hxs
      · subst hx
        simp [hinv b hbne, hbne]
      · by_cases hx : x = point_base.invalid n
        · have hrest := ih hxs k (by simpa using Nat.succ_le_succ_iff.mp hD)
          unfold point_base.point_eq at hrest
          rw [hrest, Bool.and_false]
        · simp [hinv x hx, hx]

/-- C8 amended: for every dimension D >= 2 the value returned by
point_base::null has the sentinel in every coordinate and two null points
compare equal under operator==; the further property that a null point
compares equal to no other tuple of the same dimension holds exactly for
element types whose comparison never tolerates equality between the
sentinel and a different value — true of the int instantiation (raw ==
against INT_MAX), but false of IEEE float, where eps*inf = inf makes the
tolerance test accept the sentinel against every finite value (see the
counterexample on the FP model). -/
theorem null_point_spec (n : NumT) (D : ℕ) (hD : 2 ≤ D)
    (hinv : ∀ x : ℚ, x ≠ point_base.invalid n →
      detail.equal n (point_base.invalid n) x = false) :
    point_base.null n D = List.replicate D (point_base.invalid n) ∧
    point_base.point_eq n (point_base.null n D) (point_base.null n D) = true ∧
    (∀ p : List ℚ, p.length = D → p ≠ List.replicate D (point_base.invalid n) →
      point_base.point_eq n (point_base.null n D) p = false) := by
  have hfill : point_base.fill D [point_base.invalid n, point_base.invalid n]
      = point_base.invalid n :: point_base.invalid n :: List.replicate (D - 2) 0 := by
    unfold point_base.fill
    rw [List.take_of_length_le (by simpa using hD)]
    simp
  have hnull : point_base.null n D = List.replicate D (point_base.invalid n) := by
    unfold point_base.null point_base.assign point_base.check_valid point_base.set_null
    rw [hfill, if_pos (by simp)]
    have : (point_base.invalid n :: point_base.invalid n ::
        List.replicate (D - 2) 0).length = D := by
      simp
      omega
    rw [this]
  refine ⟨hnull, ?_, ?_⟩
  · rw [hnull]
    exact point_eq_replicate_invalid n D
  · intro p hlen hne
    rw [hnull]
    have hex : ∃ b ∈ p, b ≠ point_base.invalid n := by
      by_contra hall
      push_neg at hall
      exact hne (List.eq_replicate.mpr ⟨hlen, hall⟩)
    rcases hex with ⟨b, hb, hbne⟩
    exact point_eq_replicate_invalid_false n hinv p b hb hbne D (le_of_eq hlen)

/-- Witness for C8 at the int instantiation in dimension 2: the null point
is the all-INT_MAX pair, and it is not operator==-equal to the ordinary
point (1, 2). -/
theorem null_point_spec_wit :
    point_base.null intM 2 = [2147483647, 2147483647] ∧
    point_base.point_eq intM (point_base.null intM 2) [1, 2] = false := by
  have h := null_point_spec intM 2 (by norm_num)
    (fun x hx => by
      have hx2 : x ≠ 2147483647 := by simpa [point_base.invalid, intM] using hx
      have hval : point_base.invalid intM = (2147483647 : ℚ) := by
        norm_num [point_base.invalid, intM]
      rw [hval, detail.equal]
      simp [intM, Ne.symm hx2])
  constructor
  · have h1 := h.1
    simpa [point_base.invalid, intM] using h1
  · exact h.2.2 [1, 2] (by norm_num) (by simp [point_base.invalid, intM])

/-- C8 counterexample: at the float instantiation, computed with the IEEE
semantics of the special values, the null point (+inf, +inf) returned by
point_base::null compares operator==-equal to the ordinary finite point
(0, 0), which is not the null point: on each coordinate the tolerance
test of detail::equal evaluates |inf - 0| = inf on the left and
eps * (inf + 0 + 1) = inf on the right, and inf <= inf holds.  So a null
point does NOT equal only null points, refuting the claim for inexact
element types. -/
theorem float_null_eq_finite_cex :
    point_base.null_fp 2 = [FP.pinf, FP.pinf] ∧
    point_base.point_eq_fp (point_base.null_fp 2) [FP.fin 0, FP.fin 0] = true ∧
    ([FP.fin 0, FP.fin 0] : List FP) ≠ point_base.null_fp 2 := by
  refine ⟨?_, ?_, ?_⟩ <;>
    norm_num [point_base.null_fp, point_base.fill_fp, point_base.check_valid_fp,
      point_base.point_eq_fp, detail.equal_fp, FP.sub, FP.abs, FP.add, FP.mul, FP.le,
      List.replicate_succ, List.zip_cons_cons, List.all_cons]
  exact fun h => FP.noConfusion h

/-- C9 counterexample: at the int instantiation (epsilon() = 0) the
degenerate rectangle with left = right = 1, top = 0, bottom = 1 is
normalized to the null state by the constructor, although none of its
fields equals the sentinel INT_MAX and neither left > right nor
top > bottom holds, so nullity is not exactly the claimed condition. -/
theorem rect_null_cex :
    rect2.of_bounds intM 1 1 0 1 = rect2.set_null intM ∧
    point_base.invalid intM = 2147483647 ∧
    (1 : ℚ) ≠ 2147483647 ∧ (0 : ℚ) ≠ 2147483647 ∧ ¬ (1 : ℚ) > 1 ∧ ¬ (0 : ℚ) > 1 := by
  norm_num [rect2.of_bounds, rect2.check_valid, rect2.set_null, point_base.invalid, intM]

/-- C9 amended: a constructed rectangle is normalized to the all-sentinel
null state exactly when some field equals infinity (when the type has
one), or some field equals the max value (even when infinity is the
sentinel), or l - r >= epsilon, or t - b >= epsilon — so for an exact
type (epsilon = 0) a rectangle with left = right or top = bottom is also
normalized; in particular rect2(5, 2, 0, 1) is null. -/
theorem rect_null_characterization :
    (∀ (n : NumT) (l r t b : ℚ),
      rect2.of_bounds n l r t b =
        if rect2.null_cond n l r t b then rect2.set_null n else ⟨l, r, t, b⟩) ∧
    rect2.of_bounds intM 5 2 0 1 = rect2.set_null intM := by
  constructor
  · intro n l r t b
    unfold rect2.of_bounds rect2.check_valid rect2.null_cond
    simp only [decide_eq_true_eq]
    split_ifs with h1 h2 h3 h4 <;> first | rfl | tauto
  · norm_num [rect2.of_bounds, rect2.check_valid, rect2.set_null, intM]

/-- C10 counterexample: at the float instantiation a width of -2^-24 is
negative and makes left exactly greater than right, yet the inversion is
smaller than epsilon = 2^-23, so the corner-plus-extent constructor keeps
the inverted rectangle instead of normalizing it to the null state. -/
theorem rect_extent_cex :
    rect2.of_point_extent floatM 0 0 (-(1 / 16777216)) 1 = ⟨0, -(1 / 16777216), 0, 1⟩ ∧
    (-(1 / 16777216) : ℚ) < 0 ∧
    (0 : ℚ) > -(1 / 16777216) ∧
    (⟨0, -(1 / 16777216), 0, 1⟩ : Rect) ≠ rect2.set_null floatM := by
  norm_num [rect2.of_point_extent, rect2.check_valid, rect2.set_null, floatM, Rect.mk.injEq]

/-- C10 amended: the corner-plus-extent constructor normalizes to the
all-sentinel null state whenever the width or the height is negative by
at least epsilon (for an exact type, epsilon = 0, any negative or zero
extent); an inexact-type extent that is negative by less than epsilon is
kept. -/
theorem rect_extent_negative_null (n : NumT) (px py w h : ℚ)
    (hw : n.epsilon ≤ -w ∨ n.epsilon ≤ -h) :
    rect2.of_point_extent n px py w h = rect2.set_null n := by
  unfold rect2.of_point_extent rect2.check_valid
  dsimp only
  have hcond : px - (px + w) ≥ n.epsilon ∨ py - (py + h) ≥ n.epsilon := by
    rcases hw with hw | hw
    · left; linarith
    · right; linarith
  split_ifs <;> rfl

/-- Witness for C10 amended: at the int instantiation a width of -2 nulls
the rectangle. -/
theorem rect_extent_negative_null_wit :
    rect2.of_point_extent intM 3 4 (-2) 5 = rect2.set_null intM :=
  rect_extent_negative_null intM 3 4 (-2) 5 (Or.inl (by norm_num [intM]))

/-- The tolerance comparison of detail::equal is symmetric in its two
value arguments. -/
theorem equal_symm (n : NumT) (a b : ℚ) : detail.equal n a b = detail.equal n b a := by
  unfold detail.equal
  split
  · simp [eq_comm]
  · rw [qabs_eq_abs (a - b), abs_sub_comm, ← qabs_eq_abs (b - a),
      add_comm (qabs a) (qabs b)]

/-- C1 counterexample: about the anchor (0,0), the candidates (2,0) and
(1,0) have equal modelled angle (within tolerance) and equal y
coordinates, and (2,0) is the farther point (greater x); yet the sort
comparator refuses to order (2,0) before (1,0) and instead orders (1,0)
first, and sorting the batch {(0,0),(1,0),(2,0)} keeps the nearer point
first: the tie is broken by ascending, not descending, distance. -/
theorem sort_angle_claim_cex :
    detail.equal floatM (polygon2.angle_of ⟨0, 0⟩ ⟨2, 0⟩)
      (polygon2.angle_of ⟨0, 0⟩ ⟨1, 0⟩) = true ∧
    detail.equal floatM (0 : ℚ) 0 = true ∧
    (2 : ℚ) > 1 ∧
    polygon2.sort_angle floatM ⟨0, 0⟩ ⟨2, 0⟩ ⟨1, 0⟩ = false ∧
    polygon2.sort_angle floatM ⟨0, 0⟩ ⟨1, 0⟩ ⟨2, 0⟩ = true ∧
    polygon2.sort_by (polygon2.sort_angle floatM ⟨0, 0⟩) [⟨0, 0⟩, ⟨1, 0⟩, ⟨2, 0⟩]
      = [⟨0, 0⟩, ⟨1, 0⟩, ⟨2, 0⟩] := by
  norm_num [polygon2.sort_by, polygon2.insert_sorted, polygon2.sort_angle,
    polygon2.angle_of, pseudo_angle, point2.peq, point2.null, point_base.point_eq,
    point_base.invalid, detail.equal, detail.greater_than, qabs, floatM]

/-- C1 amended: on an angle tie (within tolerance) between two non-anchor
points the comparator orders by ascending coordinate — when the y
coordinates are equal within tolerance the point with the smaller x comes
first, otherwise the point with the smaller y comes first — which on the
upward and rightward rays rooted at the anchor (minimum y, then minimum
x) places the nearer point first, not the farther one. -/
theorem sort_angle_tie_ascending (n : NumT) (best l r : point2)
    (hl : point2.peq n l best = false) (hr : point2.peq n r best = false)
    (hang : detail.equal n (polygon2.angle_of best l) (polygon2.angle_of best r) = true) :
    polygon2.sort_angle n best l r =
      (if detail.equal n r.y l.y then decide (l.x < r.x) else decide (l.y < r.y)) ∧
    polygon2.sort_angle n best r l =
      (if detail.equal n l.y r.y then decide (r.x < l.x) else decide (r.y < l.y)) := by
  have hang2 : detail.equal n (polygon2.angle_of best r) (polygon2.angle_of best l) = true := by
    rw [equal_symm]
    exact hang
  constructor
  · unfold polygon2.sort_angle
    simp [hl, hr, hang, detail.greater_than]
  · unfold polygon2.sort_angle
    simp [hl, hr, hang2, detail.greater_than]

/-- Witness for C1 amended: anchor (0,0) and the equal-angle pair (1,1),
(3,3); the y coordinates differ beyond tolerance, so the comparator
orders the smaller y — the nearer point (1,1) — first. -/
theorem sort_angle_tie_ascending_wit :
    polygon2.sort_angle floatM ⟨0, 0⟩ ⟨1, 1⟩ ⟨3, 3⟩ = true := by
  have h := sort_angle_tie_ascending floatM ⟨0, 0⟩ ⟨1, 1⟩ ⟨3, 3⟩
    (by norm_num [point2.peq, point2.null, point_base.point_eq, point_base.invalid,
      detail.equal, qabs, floatM])
    (by norm_num [point2.peq, point2.null, point_base.point_eq, point_base.invalid,
      detail.equal, qabs, floatM])
    (by norm_num [polygon2.angle_of, pseudo_angle, detail.equal, qabs, floatM])
  rw [h.1]
  norm_num [detail.equal, qabs, floatM]

/-- C2 counterexample: with the stack holding (0,0) then (1,0) (top) and
the next point (2,0), the turn is exactly collinear and the two candidate
segment lengths (2 versus 1) are not equal within tolerance; the claim
demands that (2,0) be pushed, but the scan leaves the stack unchanged and
drops the point. -/
theorem scan_collinear_cex :
    detail.greater_than (polygon2.direction ⟨0, 0⟩ ⟨1, 0⟩ ⟨2, 0⟩) 0 = false ∧
    detail.equal floatM (polygon2.direction ⟨0, 0⟩ ⟨1, 0⟩ ⟨2, 0⟩) 0 = true ∧
    detail.equal floatM (polygon2.length_sq ⟨0, 0⟩ ⟨2, 0⟩)
      (polygon2.length_sq ⟨0, 0⟩ ⟨1, 0⟩) = false ∧
    polygon2.scan floatM [⟨1, 0⟩, ⟨0, 0⟩] [⟨2, 0⟩] = [⟨1, 0⟩, ⟨0, 0⟩] ∧
    (⟨2, 0⟩ : point2) ∉ polygon2.scan floatM [⟨1, 0⟩, ⟨0, 0⟩] [⟨2, 0⟩] := by
  norm_num [polygon2.scan, polygon2.scan_point, polygon2.direction, polygon2.length_sq,
    detail.equal, detail.greater_than, qabs, floatM]

/-- C2 amended: on a scan step whose turn is not a raw-positive left turn
and whose cross product is within tolerance of zero, the two candidate
segment lengths (second-to-top to next versus second-to-top to top) are
compared: when they are NOT equal within tolerance the next point is
dropped and the stack is left unchanged (the point is not pushed); when
they ARE equal within tolerance the top is popped and the same next point
is retried. -/
theorem scan_collinear_behavior (n : NumT) (top sec p : point2) (more : List point2)
    (hpos : detail.greater_than (polygon2.direction sec top p) 0 = false)
    (hcol : detail.equal n (polygon2.direction sec top p) 0 = true) :
    (detail.equal n (polygon2.length_sq sec p) (polygon2.length_sq sec top) = false →
      polygon2.scan_point n p (top :: sec :: more) = top :: sec :: more) ∧
    (detail.equal n (polygon2.length_sq sec p) (polygon2.length_sq sec top) = true →
      polygon2.scan_point n p (top :: sec :: more) = polygon2.scan_point n p (sec :: more)) := by
  constructor <;> intro hlen
  · rw [polygon2.scan_point]
    simp [hpos, hcol, hlen]
  · conv_lhs => rw [polygon2.scan_point]
    simp [hpos, hcol, hlen]

/-- Witness for C2 amended: the concrete collinear step with unequal
lengths leaves the stack unchanged. -/
theorem scan_collinear_behavior_wit :
    polygon2.scan_point floatM ⟨2, 0⟩ [⟨1, 0⟩, ⟨0, 0⟩] = [⟨1, 0⟩, ⟨0, 0⟩] := by
  have h := scan_collinear_behavior floatM ⟨1, 0⟩ ⟨0, 0⟩ ⟨2, 0⟩ []
    (by norm_num [polygon2.direction, detail.greater_than])
    (by norm_num [polygon2.direction, detail.equal, qabs, floatM])
  exact h.1 (by norm_num [polygon2.length_sq, detail.equal, qabs, floatM])

